import Mathlib

/-
A shallow embedding of custom_components/blueconnect/sensor.py (the
BlueConnect Home Assistant integration platform file) together with proofs
of the properties its specification states.

Python dictionaries are embedded as association lists (List (String × b))
read in insertion order; dictionary indexing that can raise KeyError is
embedded as an Except-returning lookup; the Python value None is embedded
as Option.none.  Sensor readings are kept polymorphic in a value type a,
since the file never inspects them.
-/

set_option autoImplicit false

namespace BlueConnect

/-- Framework constant homeassistant.const.CONCENTRATION_PARTS_PER_MILLION. -/
def CONCENTRATION_PARTS_PER_MILLION : String := "ppm"

/-- Framework constant homeassistant.const.PERCENTAGE. -/
def PERCENTAGE : String := "%"

/-- Framework constant homeassistant.const.UnitOfConductivity.MICROSIEMENS_PER_CM. -/
def UnitOfConductivity.MICROSIEMENS_PER_CM : String := "µS/cm"

/-- Framework constant homeassistant.const.UnitOfElectricPotential.MILLIVOLT. -/
def UnitOfElectricPotential.MILLIVOLT : String := "mV"

/-- Framework constant homeassistant.const.UnitOfTemperature.CELSIUS. -/
def UnitOfTemperature.CELSIUS : String := "°C"

/-- Framework constant homeassistant.helpers.device_registry.CONNECTION_BLUETOOTH. -/
def CONNECTION_BLUETOOTH : String := "bluetooth"

/-- The homeassistant SensorDeviceClass enumeration, restricted to the
members sensor.py uses. -/
inductive SensorDeviceClass where
  | voltage
  | ph
  | battery
  | temperature
deriving DecidableEq, Repr

/-- The homeassistant SensorStateClass enumeration, restricted to the
member sensor.py uses. -/
inductive SensorStateClass where
  | measurement
deriving DecidableEq, Repr

/-- The homeassistant SensorEntityDescription record, restricted to the
fields sensor.py sets or reads.  Fields not passed at a construction site
default to none. -/
structure SensorEntityDescription where
  key : String
  name : String
  device_class : Option SensorDeviceClass := none
  state_class : Option SensorStateClass := none
  native_unit_of_measurement : Option String := none
  icon : Option String := none
  suggested_display_precision : Option Nat := none
deriving DecidableEq, Repr

/-- Modelled from the spec: BlueConnectGoDevice is imported from the
sibling module BlueConnectGo of this repository, which is not part of the
given sources.  The spec describes it as a snapshot object with a sensors
mapping and device identity fields (name, identifier, address, hw/sw
version).  Sensor readings are kept polymorphic in a value type a. -/
structure BlueConnectGoDevice (a : Type) where
  name : String
  identifier : String
  address : String
  hw_version : String
  sw_version : String
  sensors : List (String × a)
deriving DecidableEq

/-- The external polling coordinator, restricted to what sensor.py reads
from it: its data attribute holding the latest BlueConnectGoDevice
snapshot. -/
structure DataUpdateCoordinator (a : Type) where
  data : BlueConnectGoDevice a
deriving DecidableEq

/-- The homeassistant DeviceInfo record, restricted to the fields
sensor.py passes when building the device-association record. -/
structure DeviceInfo where
  connections : List (String × String)
  name : String
  manufacturer : String
  model : String
  hw_version : String
  sw_version : String
deriving DecidableEq, Repr

/-- The descriptor table SENSORS_MAPPING_TEMPLATE of sensor.py, in source
order. -/
def SENSORS_MAPPING_TEMPLATE : List (String × SensorEntityDescription) :=
  [ ("EC",
      { key := "EC"
        name := "Electrical Conductivity"
        native_unit_of_measurement := some UnitOfConductivity.MICROSIEMENS_PER_CM
        state_class := some SensorStateClass.measurement
        icon := some "mdi:flash-triangle-outline"
        suggested_display_precision := some 0 }),
    ("salt",
      { key := "salt"
        name := "Salt"
        native_unit_of_measurement := some CONCENTRATION_PARTS_PER_MILLION
        state_class := some SensorStateClass.measurement
        icon := some "mdi:shaker-outline" }),
    ("ORP",
      { key := "ORP"
        name := "Oxidation-Reduction Potential"
        native_unit_of_measurement := some UnitOfElectricPotential.MILLIVOLT
        state_class := some SensorStateClass.measurement
        device_class := some SensorDeviceClass.voltage
        icon := some "mdi:alpha-v-circle"
        suggested_display_precision := some 0 }),
    ("pH",
      { key := "pH"
        name := "pH"
        device_class := some SensorDeviceClass.ph
        state_class := some SensorStateClass.measurement
        icon := some "mdi:ph"
        suggested_display_precision := some 1 }),
    ("battery",
      { key := "battery"
        name := "Battery"
        state_class := some SensorStateClass.measurement
        device_class := some SensorDeviceClass.battery
        native_unit_of_measurement := some PERCENTAGE
        icon := some "mdi:battery"
        suggested_display_precision := some 1 }),
    ("battery_voltage",
      { key := "battery_voltage"
        name := "Battery Voltage"
        state_class := some SensorStateClass.measurement
        device_class := some SensorDeviceClass.battery
        native_unit_of_measurement := some UnitOfElectricPotential.MILLIVOLT
        icon := some "mdi:battery"
        suggested_display_precision := some 0 }),
    ("temperature",
      { key := "temperature"
        name := "Temperature"
        state_class := some SensorStateClass.measurement
        device_class := some SensorDeviceClass.temperature
        native_unit_of_measurement := some UnitOfTemperature.CELSIUS
        icon := some "mdi:pool-thermometer"
        suggested_display_precision := some 2 }),
    ("chlorine",
      { key := "chlorine"
        name := "Free Chlorine"
        state_class := some SensorStateClass.measurement
        device_class := some SensorDeviceClass.temperature
        native_unit_of_measurement := some CONCENTRATION_PARTS_PER_MILLION
        icon := some "mdi:chemical-weapon"
        suggested_display_precision := some 2 }) ]

/-- Embedding of dict.copy(): a shallow copy holding the same entries. -/
def dict_copy {b : Type} (m : List (String × b)) : List (String × b) := m

/-- Embedding of Python dict indexing m[k]: the value at the first
matching key, or a KeyError. -/
def dict_getitem {b : Type} (m : List (String × b)) (k : String) :
    Except String b :=
  match List.lookup k m with
  | some v => Except.ok v
  | none => Except.error "KeyError"

/-- The BlueConnectSensor entity state after __init__ has run: the
coordinator reference kept by CoordinatorEntity, the descriptor, and the
attributes __init__ assigns. -/
structure BlueConnectSensor (a : Type) where
  coordinator : DataUpdateCoordinator a
  entity_description : SensorEntityDescription
  _attr_unique_id : String
  _id : String
  _attr_device_info : DeviceInfo
deriving DecidableEq

/-- Embedding of BlueConnectSensor.__init__ of sensor.py. -/
def BlueConnectSensor.init {a : Type} (coordinator : DataUpdateCoordinator a)
    (blueconnect_go_device : BlueConnectGoDevice a)
    (entity_description : SensorEntityDescription) : BlueConnectSensor a :=
  let name := blueconnect_go_device.name ++ " " ++ blueconnect_go_device.identifier
  { coordinator := coordinator
    entity_description := entity_description
    _attr_unique_id := name ++ "_" ++ entity_description.key
    _id := blueconnect_go_device.address
    _attr_device_info :=
      { connections := [(CONNECTION_BLUETOOTH, blueconnect_go_device.address)]
        name := name
        manufacturer := "Blue Riiot"
        model := "Blue Connect Go"
        hw_version := blueconnect_go_device.hw_version
        sw_version := blueconnect_go_device.sw_version } }

/-- Embedding of the BlueConnectSensor.native_value property: index the
latest snapshot's sensors mapping at the descriptor's key, turning a
KeyError into None. -/
def BlueConnectSensor.native_value {a : Type} (s : BlueConnectSensor a) :
    Option a :=
  match dict_getitem s.coordinator.data.sensors s.entity_description.key with
  | Except.ok v => some v
  | Except.error _ => none

/-- The entity state after the shared coordinator has replaced its data
with a later snapshot d: the adapter itself keeps only its coordinator
reference, so its view of the data changes with it. -/
def BlueConnectSensor.after_update {a : Type} (s : BlueConnectSensor a)
    (d : BlueConnectGoDevice a) : BlueConnectSensor a :=
  { s with coordinator := { data := d } }

/-- The observable calls async_setup_entry makes, with their arguments:
the two logger.debug call sites and the async_add_entities callback. -/
inductive SetupEffect (a : Type) where
  | log_got_sensors (sensors : List (String × a))
  | log_unknown_sensor (sensor_type : String) (sensor_value : a)
  | add_entities (entities : List (BlueConnectSensor a))

/-- True exactly on the logging effects. -/
def SetupEffect.is_log {a : Type} : SetupEffect a → Bool
  | SetupEffect.log_got_sensors _ => true
  | SetupEffect.log_unknown_sensor _ _ => true
  | SetupEffect.add_entities _ => false

/-- The for-loop of async_setup_entry over the items of the snapshot's
sensors mapping: a key missing from sensors_mapping is logged and
skipped, a known key appends an adapter built from its descriptor. -/
def setup_loop {a : Type} (coordinator : DataUpdateCoordinator a)
    (sensors_mapping : List (String × SensorEntityDescription)) :
    List (String × a) → List (SetupEffect a) × List (BlueConnectSensor a)
  | [] => ([], [])
  | (sensor_type, sensor_value) :: rest =>
    let r := setup_loop coordinator sensors_mapping rest
    match List.lookup sensor_type sensors_mapping with
    | none => (SetupEffect.log_unknown_sensor sensor_type sensor_value :: r.fst, r.snd)
    | some descr =>
        (r.fst, BlueConnectSensor.init coordinator coordinator.data descr :: r.snd)

/-- The body of async_setup_entry, parameterized by the module-level
descriptor table it copies: the trace of its observable calls in order. -/
def async_setup_entry_with {a : Type}
    (template : List (String × SensorEntityDescription))
    (coordinator : DataUpdateCoordinator a) : List (SetupEffect a) :=
  let sensors_mapping := dict_copy template
  let r := setup_loop coordinator sensors_mapping coordinator.data.sensors
  SetupEffect.log_got_sensors coordinator.data.sensors ::
    (r.fst ++ [SetupEffect.add_entities r.snd])

/-- Embedding of async_setup_entry of sensor.py, as the trace of its
observable calls in order.  The coordinator stands for
hass.data[DOMAIN][entry.entry_id]. -/
def async_setup_entry {a : Type} (coordinator : DataUpdateCoordinator a) :
    List (SetupEffect a) :=
  async_setup_entry_with SENSORS_MAPPING_TEMPLATE coordinator

/-- The list of adapters async_setup_entry constructs and registers. -/
def setup_entities {a : Type} (coordinator : DataUpdateCoordinator a) :
    List (BlueConnectSensor a) :=
  (setup_loop coordinator (dict_copy SENSORS_MAPPING_TEMPLATE)
    coordinator.data.sensors).snd

/-- Helper: a successful association-list lookup returns an entry of the
list. -/
theorem lookup_mem {b : Type} {k : String} {v : b} :
    ∀ {m : List (String × b)}, List.lookup k m = some v → (k, v) ∈ m := by
  intro m
  induction m with
  | nil => intro h; simp [List.lookup] at h
  | cons p rest ih =>
    intro h
    obtain ⟨k2, v2⟩ := p
    by_cases hk : k = k2
    · subst hk
      simp [List.lookup] at h
      simp [h]
    · have hb : (k == k2) = false := beq_false_of_ne hk
      rw [List.lookup, hb] at h
      exact List.mem_cons_of_mem _ (ih h)

/-- Helper: a lookup fails exactly when the key is absent from the key
list. -/
theorem lookup_eq_none_iff {b : Type} {k : String} :
    ∀ {m : List (String × b)},
      List.lookup k m = none ↔ k ∉ m.map Prod.fst := by
  intro m
  induction m with
  | nil => simp [List.lookup]
  | cons p rest ih =>
    obtain ⟨k2, v2⟩ := p
    by_cases hk : k = k2
    · subst hk; simp [List.lookup]
    · have hb : (k == k2) = false := beq_false_of_ne hk
      rw [List.lookup, hb]
      simp [hk, ih]

/-- Helper: every entry of the descriptor table stores a descriptor whose
key field equals the entry's key. -/
theorem template_entry_key :
    ∀ p ∈ SENSORS_MAPPING_TEMPLATE, (p.snd).key = p.fst := by decide

/-- Helper: a descriptor found in the table under key k has key field k. -/
theorem lookup_template_key {k : String} {d : SensorEntityDescription}
    (h : List.lookup k SENSORS_MAPPING_TEMPLATE = some d) : d.key = k :=
  template_entry_key (k, d) (lookup_mem h)

/-- Concrete fixture: the descriptor the table stores under the pH key. -/
def pH_description : SensorEntityDescription :=
  { key := "pH"
    name := "pH"
    device_class := some SensorDeviceClass.ph
    state_class := some SensorStateClass.measurement
    icon := some "mdi:ph"
    suggested_display_precision := some 1 }

/-- Concrete fixture: a device snapshot with two known sensor keys and one
unknown one. -/
def wit_device : BlueConnectGoDevice Int :=
  { name := "Blue Connect Go"
    identifier := "F1A2"
    address := "AA:BB:CC:DD:EE:FF"
    hw_version := "2.0"
    sw_version := "3.1"
    sensors := [("temperature", 22), ("pH", 7), ("bogus", 5)] }

/-- Concrete fixture: a coordinator holding wit_device as latest data. -/
def wit_coordinator : DataUpdateCoordinator Int := ⟨wit_device⟩

/-- Concrete fixture: the adapter setup creates for the pH key of
wit_device. -/
def wit_sensor : BlueConnectSensor Int :=
  BlueConnectSensor.init wit_coordinator wit_device pH_description

/-- Concrete fixture: a later snapshot from which the pH key has
disappeared. -/
def wit_device_later : BlueConnectGoDevice Int :=
  { wit_device with sensors := [("temperature", 21), ("bogus", 5)] }

/-- Concrete fixture: the descriptor the table stores under the chlorine
key. -/
def chlorine_description : SensorEntityDescription :=
  { key := "chlorine"
    name := "Free Chlorine"
    state_class := some SensorStateClass.measurement
    device_class := some SensorDeviceClass.temperature
    native_unit_of_measurement := some CONCENTRATION_PARTS_PER_MILLION
    icon := some "mdi:chemical-weapon"
    suggested_display_precision := some 2 }

/-- C3: for every adapter and every coordinator snapshot whose sensors
mapping does not contain the adapter's key, reading native_value after the
coordinator switched to that snapshot returns none and raises no error;
the same holds for the adapter's current snapshot. -/
theorem C3_missing_key_reads_none {a : Type} (s : BlueConnectSensor a)
    (d : BlueConnectGoDevice a)
    (h : List.lookup s.entity_description.key d.sensors = none) :
    (s.after_update d).native_value = none ∧
      (List.lookup s.entity_description.key s.coordinator.data.sensors = none →
        s.native_value = none) := by
  constructor
  · simp [BlueConnectSensor.native_value, BlueConnectSensor.after_update,
      dict_getitem, h]
  · intro h2
    simp [BlueConnectSensor.native_value, dict_getitem, h2]

/-- Witness for C3 at a concrete adapter whose pH key was present at setup
but disappeared from the later snapshot. -/
theorem C3_missing_key_reads_none_witness :
    List.lookup wit_sensor.entity_description.key wit_device_later.sensors
        = none ∧
      (wit_sensor.after_update wit_device_later).native_value = none := by
  have h : List.lookup wit_sensor.entity_description.key
      wit_device_later.sensors = none := by decide
  exact ⟨h, (C3_missing_key_reads_none wit_sensor wit_device_later h).1⟩

/-- C4: for every adapter and snapshot containing the adapter's key,
native_value returns exactly the value stored at that key. -/
theorem C4_present_key_reads_value {a : Type} (s : BlueConnectSensor a)
    (v : a)
    (h : List.lookup s.entity_description.key s.coordinator.data.sensors
      = some v) :
    s.native_value = some v := by
  simp [BlueConnectSensor.native_value, dict_getitem, h]

/-- Witness for C4 at a concrete adapter whose snapshot stores 7 under its
pH key. -/
theorem C4_present_key_reads_value_witness :
    List.lookup wit_sensor.entity_description.key
        wit_sensor.coordinator.data.sensors = some 7 ∧
      wit_sensor.native_value = some 7 :=
  ⟨by decide, C4_present_key_reads_value wit_sensor 7 (by decide)⟩

/-- C5 counterexample: at a concrete device, the device-association
record's manufacturer field is the literal Blue Riiot, which equals no
field of the device object, so it is not taken verbatim from any
corresponding device field. -/
theorem C5_manufacturer_not_from_device :
    (BlueConnectSensor.init wit_coordinator wit_device
        pH_description)._attr_device_info.manufacturer = "Blue Riiot" ∧
      wit_device.name ≠ "Blue Riiot" ∧
      wit_device.identifier ≠ "Blue Riiot" ∧
      wit_device.address ≠ "Blue Riiot" ∧
      wit_device.hw_version ≠ "Blue Riiot" ∧
      wit_device.sw_version ≠ "Blue Riiot" := by decide

/-- C5 amended: on construction the device-association record takes the
connection identity (bluetooth address) and the firmware and hardware
versions verbatim from the device object, together with a display name
built from device name and identifier, while manufacturer and model are
the fixed literals Blue Riiot and Blue Connect Go. -/
theorem C5_device_info_fields {a : Type} (c : DataUpdateCoordinator a)
    (d : BlueConnectGoDevice a) (descr : SensorEntityDescription) :
    (BlueConnectSensor.init c d descr)._attr_device_info =
      { connections := [(CONNECTION_BLUETOOTH, d.address)]
        name := d.name ++ " " ++ d.identifier
        manufacturer := "Blue Riiot"
        model := "Blue Connect Go"
        hw_version := d.hw_version
        sw_version := d.sw_version } := rfl

/-- C6: the unique identifier set at construction is exactly the device
name, a space, the device identifier, an underscore and the descriptor's
key, and depends on no other input. -/
theorem C6_unique_id {a : Type} (c : DataUpdateCoordinator a)
    (d : BlueConnectGoDevice a) (descr : SensorEntityDescription) :
    (BlueConnectSensor.init c d descr)._attr_unique_id =
      d.name ++ " " ++ d.identifier ++ "_" ++ descr.key := rfl

/-- C9: the descriptor stored under any key k of the table has key field
k, so an adapter created from it reads exactly k from the latest snapshot
in native_value. -/
theorem C9_descriptor_key_invariant (k : String)
    (d : SensorEntityDescription)
    (h : List.lookup k SENSORS_MAPPING_TEMPLATE = some d) :
    d.key = k ∧
      ∀ {a : Type} (c : DataUpdateCoordinator a)
        (dev : BlueConnectGoDevice a),
        (BlueConnectSensor.init c dev d).native_value =
          List.lookup k c.data.sensors := by
  have hk := lookup_template_key h
  refine ⟨hk, ?_⟩
  intro a c dev
  cases hcase : List.lookup k c.data.sensors with
  | none =>
    simp [BlueConnectSensor.native_value, BlueConnectSensor.init,
      dict_getitem, hk, hcase]
  | some v =>
    simp [BlueConnectSensor.native_value, BlueConnectSensor.init,
      dict_getitem, hk, hcase]

/-- Witness for C9 at the pH entry of the table and a concrete
coordinator. -/
theorem C9_descriptor_key_invariant_witness :
    List.lookup "pH" SENSORS_MAPPING_TEMPLATE = some pH_description ∧
      pH_description.key = "pH" ∧
      (BlueConnectSensor.init wit_coordinator wit_device
          pH_description).native_value =
        List.lookup "pH" wit_coordinator.data.sensors := by
  have h : List.lookup "pH" SENSORS_MAPPING_TEMPLATE = some pH_description :=
    by decide
  exact ⟨h, (C9_descriptor_key_invariant "pH" pH_description h).1,
    (C9_descriptor_key_invariant "pH" pH_description h).2
      wit_coordinator wit_device⟩

/-- C10: the chlorine descriptor, named Free Chlorine, carries device
class temperature while its unit is parts-per-million, which is not the
temperature unit; every other descriptor of the table carrying the
temperature device class has the temperature unit. -/
theorem C10_chlorine_class_unit_mismatch :
    (List.lookup "chlorine" SENSORS_MAPPING_TEMPLATE
        = some chlorine_description ∧
      chlorine_description.name = "Free Chlorine" ∧
      chlorine_description.device_class
        = some SensorDeviceClass.temperature ∧
      chlorine_description.native_unit_of_measurement
        = some CONCENTRATION_PARTS_PER_MILLION ∧
      CONCENTRATION_PARTS_PER_MILLION ≠ UnitOfTemperature.CELSIUS) ∧
    (∀ p ∈ SENSORS_MAPPING_TEMPLATE, p.fst ≠ "chlorine" →
      (p.snd).device_class = some SensorDeviceClass.temperature →
      (p.snd).native_unit_of_measurement
        = some UnitOfTemperature.CELSIUS) := by decide

/-- Helper: a lookup succeeds exactly when the key occurs in the key
list. -/
theorem lookup_isSome_iff {b : Type} {k : String} {m : List (String × b)} :
    (List.lookup k m).isSome = true ↔ k ∈ m.map Prod.fst := by
  cases hcase : List.lookup k m with
  | none =>
    simp only [Option.isSome_none, Bool.false_eq_true, false_iff]
    exact lookup_eq_none_iff.mp hcase
  | some v =>
    simp only [Option.isSome_some, true_iff]
    exact List.mem_map.mpr ⟨(k, v), lookup_mem hcase, rfl⟩

/-- Helper: every effect the setup loop emits is a logging effect; the
registration call happens outside the loop. -/
theorem setup_loop_fst_is_log {a : Type} (c : DataUpdateCoordinator a)
    (m : List (String × SensorEntityDescription)) :
    ∀ (l : List (String × a)) e, e ∈ (setup_loop c m l).fst →
      e.is_log = true := by
  intro l
  induction l with
  | nil => intro e he; simp [setup_loop] at he
  | cons p rest ih =>
    obtain ⟨k2, v2⟩ := p
    intro e he
    simp only [setup_loop] at he
    cases hcase : List.lookup k2 m with
    | none =>
      rw [hcase] at he
      simp only [List.mem_cons] at he
      rcases he with he | he
      · subst he; rfl
      · exact ih e he
    | some d =>
      rw [hcase] at he
      exact ih e he

/-- Helper: every adapter the setup loop builds carries a descriptor that
the mapping stores under that descriptor's own key. -/
theorem setup_loop_snd_key {a : Type} (c : DataUpdateCoordinator a)
    (m : List (String × SensorEntityDescription))
    (hm : ∀ p ∈ m, (p.snd).key = p.fst) :
    ∀ (l : List (String × a)) e, e ∈ (setup_loop c m l).snd →
      List.lookup e.entity_description.key m = some e.entity_description := by
  intro l
  induction l with
  | nil => intro e he; simp [setup_loop] at he
  | cons p rest ih =>
    obtain ⟨k2, v2⟩ := p
    intro e he
    simp only [setup_loop] at he
    cases hcase : List.lookup k2 m with
    | none =>
      rw [hcase] at he
      exact ih e he
    | some d =>
      rw [hcase] at he
      simp only [List.mem_cons] at he
      rcases he with he | he
      · subst he
        have hd : d.key = k2 := hm (k2, d) (lookup_mem hcase)
        show List.lookup d.key m = some d
        rw [hd]
        exact hcase
      · exact ih e he

/-- Helper: the number of adapters the loop builds whose descriptor key is
k, for a snapshot list without duplicate keys. -/
theorem setup_loop_count {a : Type} (c : DataUpdateCoordinator a)
    (m : List (String × SensorEntityDescription))
    (hm : ∀ p ∈ m, (p.snd).key = p.fst) :
    ∀ (l : List (String × a)), (l.map Prod.fst).Nodup →
      ∀ k, (setup_loop c m l).snd.countP
          (fun e => e.entity_description.key == k) =
        if k ∈ l.map Prod.fst ∧ (List.lookup k m).isSome = true
          then 1 else 0 := by
  intro l
  induction l with
  | nil => intro _ k; simp [setup_loop]
  | cons p rest ih =>
    obtain ⟨k2, v2⟩ := p
    intro hnd k
    have hnd2 : (rest.map Prod.fst).Nodup := (List.nodup_cons.mp hnd).2
    have hk2 : k2 ∉ rest.map Prod.fst := (List.nodup_cons.mp hnd).1
    simp only [setup_loop]
    cases hcase : List.lookup k2 m with
    | none =>
      rw [ih hnd2 k]
      by_cases hkk : k = k2
      · subst hkk
        simp [hcase, hk2]
      · by_cases hmem : k ∈ List.map Prod.fst rest <;>
          by_cases hsome : (List.lookup k m).isSome = true <;>
          simp [List.mem_cons, hkk, hmem, hsome]
    | some d =>
      have hd : d.key = k2 := hm (k2, d) (lookup_mem hcase)
      rw [List.countP_cons, ih hnd2 k]
      by_cases hkk : k = k2
      · subst hkk
        have hpe : ((BlueConnectSensor.init c c.data
            d).entity_description.key == k) = true := by
          show (d.key == k) = true
          rw [hd]
          exact beq_self_eq_true k
        simp [hpe, hk2, hcase]
      · have hpe : ((BlueConnectSensor.init c c.data
            d).entity_description.key == k) = false := by
          show (d.key == k) = false
          rw [hd]
          exact beq_false_of_ne (Ne.symm hkk)
        by_cases hmem : k ∈ List.map Prod.fst rest <;>
          by_cases hsome : (List.lookup k m).isSome = true <;>
          simp [hpe, List.mem_cons, hkk, hmem, hsome]

/-- C1: for a snapshot without duplicate keys, setup creates exactly one
adapter per key present both in the snapshot and in the descriptor table,
and the entity list contains no adapter for any other key. -/
theorem C1_one_adapter_per_known_key {a : Type}
    (c : DataUpdateCoordinator a)
    (hnd : (c.data.sensors.map Prod.fst).Nodup) :
    ∀ k, (setup_entities c).countP
        (fun e => e.entity_description.key == k) =
      if k ∈ c.data.sensors.map Prod.fst ∧
          k ∈ SENSORS_MAPPING_TEMPLATE.map Prod.fst then 1 else 0 := by
  intro k
  have h := setup_loop_count c (dict_copy SENSORS_MAPPING_TEMPLATE)
    template_entry_key c.data.sensors hnd k
  rw [setup_entities, h]
  have hiff : (List.lookup k (dict_copy SENSORS_MAPPING_TEMPLATE)).isSome
      = true ↔ k ∈ SENSORS_MAPPING_TEMPLATE.map Prod.fst := lookup_isSome_iff
  by_cases hmem : k ∈ c.data.sensors.map Prod.fst
  · by_cases htab : k ∈ SENSORS_MAPPING_TEMPLATE.map Prod.fst
    · rw [if_pos ⟨hmem, hiff.mpr htab⟩, if_pos ⟨hmem, htab⟩]
    · rw [if_neg (fun hc => htab (hiff.mp hc.2)),
        if_neg (fun hc => htab hc.2)]
  · rw [if_neg (fun hc => hmem hc.1), if_neg (fun hc => hmem hc.1)]

/-- Witness for C1 at a concrete coordinator: the snapshot keys are
distinct and exactly one adapter is created for the pH key. -/
theorem C1_one_adapter_per_known_key_witness :
    (wit_coordinator.data.sensors.map Prod.fst).Nodup ∧
      (setup_entities wit_coordinator).countP
        (fun e => e.entity_description.key == "pH") = 1 := by
  have hnd : (wit_coordinator.data.sensors.map Prod.fst).Nodup := by decide
  refine ⟨hnd, ?_⟩
  rw [C1_one_adapter_per_known_key wit_coordinator hnd "pH"]
  decide

/-- Helper: a snapshot entry whose key the mapping does not know
contributes its unknown-sensor log to the loop's effect list. -/
theorem setup_loop_logs_unknown {a : Type} (c : DataUpdateCoordinator a)
    (m : List (String × SensorEntityDescription)) (k : String) (v : a)
    (hk : List.lookup k m = none) :
    ∀ (l1 l2 : List (String × a)),
      SetupEffect.log_unknown_sensor k v ∈
        (setup_loop c m (l1 ++ (k, v) :: l2)).fst := by
  intro l1
  induction l1 with
  | nil =>
    intro l2
    simp only [List.nil_append, setup_loop]
    rw [hk]
    exact List.mem_cons_self _ _
  | cons p l1t ih =>
    intro l2
    obtain ⟨k1, v1⟩ := p
    simp only [List.cons_append, setup_loop]
    cases hcase : List.lookup k1 m with
    | none => exact List.mem_cons_of_mem _ (ih l2)
    | some d => exact ih l2

/-- Helper: a snapshot entry whose key the mapping does not know is
skipped: the loop builds the same adapters as on the list without it. -/
theorem setup_loop_skips_unknown {a : Type} (c : DataUpdateCoordinator a)
    (m : List (String × SensorEntityDescription)) (k : String) (v : a)
    (hk : List.lookup k m = none) :
    ∀ (l1 l2 : List (String × a)),
      (setup_loop c m (l1 ++ (k, v) :: l2)).snd =
        (setup_loop c m (l1 ++ l2)).snd := by
  intro l1
  induction l1 with
  | nil =>
    intro l2
    simp only [List.nil_append, setup_loop]
    rw [hk]
  | cons p l1t ih =>
    intro l2
    obtain ⟨k1, v1⟩ := p
    simp only [List.cons_append, setup_loop]
    cases hcase : List.lookup k1 m with
    | none => exact ih l2
    | some d =>
      exact congrArg (List.cons (BlueConnectSensor.init c c.data d)) (ih l2)

/-- C2: a snapshot key absent from the descriptor table yields no adapter
with that key, its diagnostic log appears in the setup trace, and the
remaining keys are processed as if the unknown entry were not there;
async_setup_entry is a total function, so no exception propagates. -/
theorem C2_unknown_key_skipped {a : Type} (c : DataUpdateCoordinator a)
    (k : String) (v : a) (l1 l2 : List (String × a))
    (hsens : c.data.sensors = l1 ++ (k, v) :: l2)
    (hk : List.lookup k SENSORS_MAPPING_TEMPLATE = none) :
    (∀ e ∈ setup_entities c, e.entity_description.key ≠ k) ∧
      SetupEffect.log_unknown_sensor k v ∈ async_setup_entry c ∧
      setup_entities c =
        (setup_loop c (dict_copy SENSORS_MAPPING_TEMPLATE) (l1 ++ l2)).snd := by
  refine ⟨?_, ?_, ?_⟩
  · intro e he hke
    have h := setup_loop_snd_key c (dict_copy SENSORS_MAPPING_TEMPLATE)
      template_entry_key c.data.sensors e he
    rw [hke] at h
    rw [show List.lookup k (dict_copy SENSORS_MAPPING_TEMPLATE) =
        List.lookup k SENSORS_MAPPING_TEMPLATE from rfl, hk] at h
    exact Option.noConfusion h
  · show SetupEffect.log_unknown_sensor k v ∈
      async_setup_entry_with SENSORS_MAPPING_TEMPLATE c
    rw [async_setup_entry_with]
    refine List.mem_cons_of_mem _ (List.mem_append_left _ ?_)
    rw [hsens]
    exact setup_loop_logs_unknown c (dict_copy SENSORS_MAPPING_TEMPLATE)
      k v hk l1 l2
  · rw [setup_entities, hsens]
    exact setup_loop_skips_unknown c (dict_copy SENSORS_MAPPING_TEMPLATE)
      k v hk l1 l2

/-- Witness for C2 at a concrete coordinator whose snapshot holds the
unknown key bogus after two known keys. -/
theorem C2_unknown_key_skipped_witness :
    wit_coordinator.data.sensors =
        [("temperature", 22), ("pH", 7)] ++ ("bogus", (5 : Int)) :: [] ∧
      List.lookup "bogus" SENSORS_MAPPING_TEMPLATE = none ∧
      SetupEffect.log_unknown_sensor "bogus" (5 : Int) ∈
        async_setup_entry wit_coordinator ∧
      setup_entities wit_coordinator =
        (setup_loop wit_coordinator (dict_copy SENSORS_MAPPING_TEMPLATE)
          ([("temperature", 22), ("pH", 7)] ++ [])).snd := by
  have hsens : wit_coordinator.data.sensors =
      [("temperature", 22), ("pH", 7)] ++ ("bogus", (5 : Int)) :: [] := rfl
  have hk : List.lookup "bogus" SENSORS_MAPPING_TEMPLATE = none := by decide
  have h := C2_unknown_key_skipped wit_coordinator "bogus" 5
    [("temperature", 22), ("pH", 7)] [] hsens hk
  exact ⟨hsens, hk, h.2.1, h.2.2⟩

/-- C8: the non-logging effects of async_setup_entry are exactly one
invocation of the async_add_entities callback, applied to the full list
of adapters constructed during that setup. -/
theorem C8_single_registration_call {a : Type}
    (c : DataUpdateCoordinator a) :
    (async_setup_entry c).filter (fun e => ! e.is_log) =
      [SetupEffect.add_entities (setup_entities c)] := by
  have hnil : (setup_loop c (dict_copy SENSORS_MAPPING_TEMPLATE)
      c.data.sensors).fst.filter (fun e => ! e.is_log) = [] := by
    rw [List.filter_eq_nil_iff]
    intro e he
    have hl := setup_loop_fst_is_log c (dict_copy SENSORS_MAPPING_TEMPLATE)
      c.data.sensors e he
    simp [hl]
  show ((setup_loop c (dict_copy SENSORS_MAPPING_TEMPLATE)
        c.data.sensors).fst ++
      [SetupEffect.add_entities (setup_loop c
        (dict_copy SENSORS_MAPPING_TEMPLATE) c.data.sensors).snd]).filter
      (fun e => ! e.is_log) =
    [SetupEffect.add_entities (setup_entities c)]
  rw [List.filter_append, hnil]
  rfl

/-- The operations of sensor.py that can run after module load, each
carrying its inputs: an async_setup_entry call, a BlueConnectSensor
construction, and a native_value read. -/
inductive TraceOp (a : Type) where
  | setup_entry (c : DataUpdateCoordinator a)
  | sensor_init (c : DataUpdateCoordinator a)
      (dev : BlueConnectGoDevice a) (descr : SensorEntityDescription)
  | native_value_read (s : BlueConnectSensor a)

/-- The result an operation returns to its caller. -/
inductive OpResult (a : Type) where
  | setup_done (effects : List (SetupEffect a))
  | constructed (s : BlueConnectSensor a)
  | value_read (v : Option a)

/-- The module-level mutable state of sensor.py: the one global the file
defines, the descriptor table. -/
structure ModuleState where
  sensors_mapping_template : List (String × SensorEntityDescription)

/-- The module state right after load time. -/
def ModuleState.load : ModuleState :=
  { sensors_mapping_template := SENSORS_MAPPING_TEMPLATE }

/-- Running one operation against the module state: setup copies the
table and iterates over the copy, construction and reads never touch it,
and none of the three assigns to the global. -/
def TraceOp.run {a : Type} : TraceOp a → ModuleState →
    OpResult a × ModuleState
  | TraceOp.setup_entry c, st =>
    (OpResult.setup_done
      (async_setup_entry_with st.sensors_mapping_template c), st)
  | TraceOp.sensor_init c dev descr, st =>
    (OpResult.constructed (BlueConnectSensor.init c dev descr), st)
  | TraceOp.native_value_read s, st =>
    (OpResult.value_read s.native_value, st)

/-- Running a sequence of operations, threading the module state. -/
def run_ops {a : Type} : List (TraceOp a) → ModuleState → ModuleState
  | [], st => st
  | op :: rest, st => run_ops rest (TraceOp.run op st).snd

/-- C7: after any number of setup calls, adapter constructions and
native_value reads following module load, the descriptor table still
equals its load-time value. -/
theorem C7_template_never_mutated {a : Type} (ops : List (TraceOp a)) :
    (run_ops ops ModuleState.load).sensors_mapping_template =
      SENSORS_MAPPING_TEMPLATE := by
  have h : ∀ st : ModuleState, run_ops ops st = st := by
    induction ops with
    | nil => intro st; rfl
    | cons op rest ih =>
      intro st
      cases op with
      | setup_entry c => exact ih st
      | sensor_init c dev descr => exact ih st
      | native_value_read s => exact ih st
  rw [h ModuleState.load]
  rfl

end BlueConnect
